import Mathlib

set_option linter.unusedVariables false

/-
Verification of the breakout-analysis pipeline (my_script.py).

The pipeline is embedded shallowly: each pandas column operation used by the
script becomes a pure Lean function on lists, dates become ordinal labels
(naturals, strictly increasing along the series), prices and volumes become
rationals, and a missing value (NaN) becomes Option.none.  The four source
functions keep their names: calculate_rolling_avg_volume,
identify_breakout_days, calculate_holding_returns, and the summary-metrics
block of the col2 section is embedded as summarize.
-/

namespace Breakout

/-- One fetched bar of the daily series: trading date (an ordinal label),
close price and traded volume (the Close and Volume columns). -/
structure Bar where
  date : ℕ
  close : ℚ
  volume : ℚ
deriving DecidableEq, Inhabited

/-- Output row of calculate_rolling_avg_volume: a bar together with the two
derived columns, each possibly missing (NaN in the source frame). -/
structure DerivedBar where
  date : ℕ
  close : ℚ
  volume : ℚ
  avg_volume : Option ℚ
  daily_return : Option ℚ
deriving DecidableEq, Inhabited

/-- Embedding of pandas Series.rolling(window=w, min_periods=w).mean():
entry i is the mean of the w values ending at position i, missing until a
full window of w values is available. -/
def rollingMean (w : ℕ) (xs : List ℚ) : List (Option ℚ) :=
  (List.range xs.length).map fun i =>
    if w ≤ i + 1 then some ((((xs.drop (i + 1 - w)).take w).sum) / (w : ℚ)) else none

/-- Embedding of pandas Series.shift(1): each value moves one position later
and the first entry becomes missing; the length is unchanged. -/
def shift1 (xs : List (Option ℚ)) : List (Option ℚ) :=
  (none :: xs).take xs.length

/-- Embedding of pandas Series.pct_change(periods=1): fractional change from
the previous entry, missing at position 0. -/
def pctChange (xs : List ℚ) : List (Option ℚ) :=
  (List.range xs.length).map fun i =>
    if i = 0 then none
    else some ((xs.getD i 0 - xs.getD (i - 1) 0) / xs.getD (i - 1) 0)

/-- The wDay_Avg_Volume column of the source, line 24:
Volume.rolling(window=w, min_periods=w).mean().shift(1). -/
def avgVolumeCol (w : ℕ) (vols : List ℚ) : List (Option ℚ) :=
  shift1 (rollingMean w vols)

/-- The Daily_Return column of the source, line 25:
Close.pct_change(periods=1) * 100. -/
def dailyReturnCol (closes : List ℚ) : List (Option ℚ) :=
  (pctChange closes).map (Option.map (fun r => r * 100))

/-- Lines 24 and 25 of calculate_rolling_avg_volume: both derived columns are
computed over the FULL buffered frame, before any row is dropped. -/
def derive (bars : List Bar) (w : ℕ) : List DerivedBar :=
  (List.range bars.length).map fun i =>
    { date := (bars.getD i default).date
      close := (bars.getD i default).close
      volume := (bars.getD i default).volume
      avg_volume := (avgVolumeCol w (bars.map fun b => b.volume)).getD i none
      daily_return := (dailyReturnCol (bars.map fun b => b.close)).getD i none }

/-- Source lines 23 to 27: compute both derived columns over the full buffered
frame, then keep only rows with index on or after the requested start date,
then dropna (a row survives only if both derived values are present; date,
close and volume are never missing in the fetched frame). -/
def calculate_rolling_avg_volume (bars : List Bar) (start w : ℕ) : List DerivedBar :=
  ((derive bars w).filter fun b => decide (start ≤ b.date)).filter
    fun b => b.avg_volume.isSome && b.daily_return.isSome

/-- Output row of identify_breakout_days: the derived bar plus the three
boolean columns added by source lines 31 to 33. -/
structure ClassifiedBar extends DerivedBar where
  volume_breakout : Bool
  price_breakout : Bool
  breakout_day : Bool
deriving DecidableEq, Inhabited

/-- The Volume_Breakout comparison of source line 31: Volume strictly greater
than (volume_threshold / 100) * trailing average.  A pandas comparison
against NaN yields False, hence the match on the optional field. -/
def volumeFlag (vt : ℚ) (b : DerivedBar) : Bool :=
  match b.avg_volume with
  | some a => decide (vt / 100 * a < b.volume)
  | none => false

/-- The Price_Breakout comparison of source line 32: Daily_Return strictly
greater than the price threshold, False when the return is missing. -/
def priceFlag (pt : ℚ) (b : DerivedBar) : Bool :=
  match b.daily_return with
  | some r => decide (pt < r)
  | none => false

/-- Row body of the vectorized comparisons of source lines 31 to 33;
Breakout_Day is the conjunction of the two flags. -/
def classifyBar (vt pt : ℚ) (b : DerivedBar) : ClassifiedBar :=
  { toDerivedBar := b
    volume_breakout := volumeFlag vt b
    price_breakout := priceFlag pt b
    breakout_day := volumeFlag vt b && priceFlag pt b }

/-- A derived bar sitting exactly on the volume threshold boundary:
volume 2000 equals 200 / 100 times the baseline 1000. -/
def c4Bar : DerivedBar :=
  { date := 0, close := 100, volume := 2000, avg_volume := some 1000, daily_return := some 5 }

/-- A derived bar strictly above the volume threshold boundary. -/
def c4StrictBar : DerivedBar :=
  { date := 0, close := 100, volume := 2500, avg_volume := some 1000, daily_return := some 5 }

/-- Source lines 30 to 34: add the Volume_Breakout, Price_Breakout and
Breakout_Day columns row by row. -/
def identify_breakout_days (rows : List DerivedBar) (vt pt : ℚ) : List ClassifiedBar :=
  rows.map (classifyBar vt pt)

/-- Output row of calculate_holding_returns before the final dropna: the
breakout row plus Buy_Price and the possibly missing Sell_Price; the date of
the selected sell bar is carried along (in the source frame it is the label
of the entry that iloc -1 picks). -/
structure TradeRow extends ClassifiedBar where
  buy_price : ℚ
  sell_date : Option ℕ
  sell_price : Option ℚ
deriving DecidableEq, Inhabited

/-- Source line 42: data.loc from the breakout date onward (label slicing on
the sorted date index keeps every row with date at least d), then iloc 1 to
holding_period + 1, i.e. drop the breakout row itself and keep at most hp
following rows. -/
def futureWindow (rows : List ClassifiedBar) (d : ℕ) (hp : ℕ) : List ClassifiedBar :=
  ((rows.dropWhile fun r => decide (r.date < d)).drop 1).take hp

/-- Loop body of source lines 41 to 44 for one breakout row: Buy_Price is the
close of the breakout row; the sell entry is the last element of the future
window when that window is nonempty, and missing otherwise. -/
def makeTrade (rows : List ClassifiedBar) (hp : ℕ) (b : ClassifiedBar) : TradeRow :=
  { toClassifiedBar := b
    buy_price := b.close
    sell_date := (futureWindow rows b.date hp).getLast?.map fun r => r.date
    sell_price := (futureWindow rows b.date hp).getLast?.map fun r => r.close }

/-- Source lines 37 to 48: keep the rows flagged Breakout_Day, attach buy and
sell data to each, and drop the rows whose Sell_Price is missing. -/
def calculate_holding_returns (rows : List ClassifiedBar) (hp : ℕ) : List TradeRow :=
  ((rows.filter fun r => r.breakout_day).map (makeTrade rows hp)).filter
    fun t => t.sell_price.isSome

/-- The Return column of source line 46, restricted to the rows that survive
the final dropna (their Sell_Price is present, so getD never fires). -/
def rowReturn (t : TradeRow) : ℚ :=
  (t.sell_price.getD 0 - t.buy_price) / t.buy_price * 100

/-- The three summary metrics of source lines 98 to 100. -/
structure Summary where
  total_trades : ℕ
  mean_return_pct : ℚ
  win_rate_pct : ℚ
deriving DecidableEq

/-- Embedding of pandas Series.mean(): sum divided by length. -/
def seriesMean (xs : List ℚ) : ℚ :=
  xs.sum / (xs.length : ℚ)

/-- Source lines 93 to 105: when the result frame is empty the script shows a
warning and computes no metric (the metrics are undefined, embedded as none);
otherwise total_trades is the row count, mean_return is Return.mean(), and
win_rate is (Return greater than 0).mean() * 100, a boolean series mean, i.e.
the mean of the 0 or 1 indicator. -/
def summarize (trades : List TradeRow) : Option Summary :=
  if trades.isEmpty then none
  else some
    { total_trades := trades.length
      mean_return_pct := seriesMean (trades.map rowReturn)
      win_rate_pct := seriesMean (trades.map fun t => if 0 < rowReturn t then (1 : ℚ) else 0) * 100 }

/-- The col2 pipeline of source lines 85 to 87: baseline, classification,
holding returns. -/
def run_pipeline (bars : List Bar) (start w : ℕ) (vt pt : ℚ) (hp : ℕ) : List TradeRow :=
  calculate_holding_returns
    (identify_breakout_days (calculate_rolling_avg_volume bars start w) vt pt) hp

/-! Helper lemmas about the embedded pandas column operations. -/

theorem length_rollingMean (w : ℕ) (xs : List ℚ) : (rollingMean w xs).length = xs.length := by
  unfold rollingMean
  rw [List.length_map, List.length_range]

theorem rollingMean_getElem (w : ℕ) (xs : List ℚ) (j : ℕ) (hj : j < xs.length) :
    (rollingMean w xs)[j]? =
      some (if w ≤ j + 1 then some ((((xs.drop (j + 1 - w)).take w).sum) / (w : ℚ)) else none) := by
  unfold rollingMean
  rw [List.getElem?_map, List.getElem?_range hj]
  rfl

theorem avgVolumeCol_getD_zero (w : ℕ) (xs : List ℚ) (h0 : 0 < xs.length) :
    (avgVolumeCol w xs).getD 0 none = none := by
  unfold avgVolumeCol shift1
  rw [List.getD_eq_getElem?_getD, List.getElem?_take,
      if_pos (by rw [length_rollingMean]; omega), List.getElem?_cons_zero]
  rfl

theorem avgVolumeCol_getD (w : ℕ) (xs : List ℚ) (i : ℕ) (h1 : 1 ≤ i) (hi : i < xs.length) :
    (avgVolumeCol w xs).getD i none =
      if w ≤ i then some ((((xs.drop (i - w)).take w).sum) / (w : ℚ)) else none := by
  obtain ⟨j, rfl⟩ : ∃ j, i = j + 1 := ⟨i - 1, by omega⟩
  unfold avgVolumeCol shift1
  rw [List.getD_eq_getElem?_getD, List.getElem?_take,
      if_pos (by rw [length_rollingMean]; omega),
      List.getElem?_cons_succ, rollingMean_getElem w xs j (by omega), Option.getD_some]

/-- C3: for every series and every rolling_window w (with w at most the series
length minus one), the trailing average volume column, computed by source line
24 over the full buffered series, is defined at position i exactly when
w ≤ i, and is then the arithmetic mean of the window of exactly w volumes at
positions i-w up to i-1 (a window that cannot contain position i itself). -/
theorem trailing_avg_volume_spec (xs : List ℚ) (w i : ℕ) (hw : 1 ≤ w)
    (hn : w ≤ xs.length - 1) (hi : i < xs.length) :
    (((avgVolumeCol w xs).getD i none).isSome ↔ w ≤ i)
    ∧ (w ≤ i →
        (avgVolumeCol w xs).getD i none
          = some ((((xs.drop (i - w)).take w).sum) / (w : ℚ))
          ∧ ((xs.drop (i - w)).take w).length = w) := by
  constructor
  · by_cases h1 : 1 ≤ i
    · rw [avgVolumeCol_getD w xs i h1 hi]
      by_cases hwi : w ≤ i
      · simp [hwi]
      · simp [hwi]
    · have h0 : i = 0 := by omega
      subst h0
      rw [avgVolumeCol_getD_zero w xs (by omega)]
      simp
      omega
  · intro hwi
    have h1 : 1 ≤ i := by omega
    rw [avgVolumeCol_getD w xs i h1 hi, if_pos hwi]
    refine ⟨rfl, ?_⟩
    rw [List.length_take, List.length_drop]
    omega

/-- The C3 theorem evaluated at a concrete series of four volumes with
rolling_window 2 at position 3: the baseline is the mean of positions 1 and 2. -/
theorem trailing_avg_volume_spec_witness :
    ((((avgVolumeCol 2 ([1, 2, 3, 4] : List ℚ)).getD 3 none).isSome ↔ 2 ≤ 3)
    ∧ (2 ≤ 3 →
        (avgVolumeCol 2 ([1, 2, 3, 4] : List ℚ)).getD 3 none
          = some ((((([1, 2, 3, 4] : List ℚ).drop (3 - 2)).take 2).sum) / ((2 : ℕ) : ℚ))
          ∧ ((([1, 2, 3, 4] : List ℚ).drop (3 - 2)).take 2).length = 2)) :=
  trailing_avg_volume_spec ([1, 2, 3, 4] : List ℚ) 2 3 (by decide) (by decide) (by decide)

theorem dailyReturnCol_getD_zero (xs : List ℚ) (h0 : 0 < xs.length) :
    (dailyReturnCol xs).getD 0 none = none := by
  unfold dailyReturnCol pctChange
  rw [List.getD_eq_getElem?_getD, List.getElem?_map, List.getElem?_map,
      List.getElem?_range h0]
  rfl

/-- C7: the daily return column, computed by source line 25 over the full
buffered series, is missing at position 0 and at every later position i
equals (close i - close (i-1)) / close (i-1) * 100. -/
theorem daily_return_spec (closes : List ℚ) (i : ℕ) (h1 : 1 ≤ i) (hi : i < closes.length) :
    (dailyReturnCol closes).getD 0 none = none
    ∧ (dailyReturnCol closes).getD i none
        = some ((closes.getD i 0 - closes.getD (i - 1) 0) / closes.getD (i - 1) 0 * 100) := by
  refine ⟨dailyReturnCol_getD_zero closes (by omega), ?_⟩
  unfold dailyReturnCol pctChange
  rw [List.getD_eq_getElem?_getD, List.getElem?_map, List.getElem?_map,
      List.getElem?_range hi]
  simp only [Option.map_some']
  rw [if_neg (by omega)]
  rfl

/-- The C7 theorem evaluated at a concrete series of closes at position 2:
the return is (30 - 20) / 20 * 100 = 50. -/
theorem daily_return_spec_witness :
    (1 ≤ 2 ∧ 2 < ([10, 20, 30] : List ℚ).length)
    ∧ ((dailyReturnCol ([10, 20, 30] : List ℚ)).getD 0 none = none
    ∧ (dailyReturnCol ([10, 20, 30] : List ℚ)).getD 2 none
        = some ((([10, 20, 30] : List ℚ).getD 2 0 - ([10, 20, 30] : List ℚ).getD (2 - 1) 0)
            / ([10, 20, 30] : List ℚ).getD (2 - 1) 0 * 100)) :=
  ⟨⟨by decide, by decide⟩, daily_return_spec ([10, 20, 30] : List ℚ) 2 (by decide) (by decide)⟩

/-! Classifier lemmas and claims about identify_breakout_days. -/

theorem identify_getD (rows : List DerivedBar) (vt pt : ℚ) (i : ℕ) (hi : i < rows.length) :
    (identify_breakout_days rows vt pt).getD i default
      = classifyBar vt pt (rows.getD i default) := by
  unfold identify_breakout_days
  rw [List.getD_eq_getElem?_getD, List.getElem?_map, List.getD_eq_getElem?_getD,
      List.getElem?_eq_getElem hi]
  rfl

/-- A bar of the classified frame flagged Breakout_Day always has both derived
fields present: a missing field makes the corresponding pandas comparison
False, and the conjunction with it as well. -/
theorem classifyBar_breakout_defined (vt pt : ℚ) (b : DerivedBar) :
    (!(classifyBar vt pt b).breakout_day
      || ((classifyBar vt pt b).avg_volume.isSome && (classifyBar vt pt b).daily_return.isSome))
      = true := by
  unfold classifyBar volumeFlag priceFlag
  cases hA : b.avg_volume <;> cases hB : b.daily_return <;> simp [hA, hB]

/-- C4 counterexample: a bar whose volume equals the scaled baseline exactly
(2000 = 200 / 100 * 1000) while the price condition holds (5 > 2) is NOT
flagged by the source classifier, which compares with a strict inequality;
the claim requires it to be flagged. -/
theorem volume_threshold_boundary_counterexample :
    c4Bar.avg_volume = some 1000 ∧ c4Bar.daily_return = some 5
    ∧ (200 : ℚ) / 100 * 1000 ≤ c4Bar.volume ∧ (2 : ℚ) < 5
    ∧ (identify_breakout_days [c4Bar] 200 2).map (fun c => c.breakout_day) = [false] := by
  refine ⟨rfl, rfl, by norm_num [c4Bar], by norm_num, ?_⟩
  simp [identify_breakout_days, classifyBar, volumeFlag, priceFlag, c4Bar]
  norm_num

/-- C4 amended: for every bar with both derived fields defined, the classifier
flags it exactly when the volume is STRICTLY greater than
(volume_threshold_pct / 100) times the trailing average volume and the daily
return is strictly greater than price_threshold_pct; a bar whose volume
equals the scaled baseline exactly is not flagged. -/
theorem volume_breakout_strict_spec (rows : List DerivedBar) (vt pt a r : ℚ) (i : ℕ)
    (hi : i < rows.length)
    (ha : (rows.getD i default).avg_volume = some a)
    (hr : (rows.getD i default).daily_return = some r) :
    ((identify_breakout_days rows vt pt).getD i default).breakout_day
      = (decide (vt / 100 * a < (rows.getD i default).volume) && decide (pt < r)) := by
  rw [identify_getD rows vt pt i hi]
  unfold classifyBar volumeFlag priceFlag
  rw [ha, hr]

/-- The C4 amended theorem evaluated at a concrete singleton frame: a bar with
volume 2500 against a scaled baseline of 2000 and return 5 against threshold
2 is flagged. -/
theorem volume_breakout_strict_spec_witness :
    (0 < [c4StrictBar].length
    ∧ ([c4StrictBar].getD 0 default).avg_volume = some 1000
    ∧ ([c4StrictBar].getD 0 default).daily_return = some 5)
    ∧ ((identify_breakout_days [c4StrictBar] 200 2).getD 0 default).breakout_day
      = (decide ((200 : ℚ) / 100 * 1000 < ([c4StrictBar].getD 0 default).volume)
          && decide ((2 : ℚ) < 5)) :=
  ⟨⟨by decide, rfl, rfl⟩,
    volume_breakout_strict_spec [c4StrictBar] 200 2 1000 5 0 (by decide) rfl rfl⟩

/-- C8: the classified output of the baseline stage consists of exactly the
rows of the frame derived over the FULL buffered series whose date is on or
after the requested start date and whose two derived fields are both present
(rows with a missing baseline are absent from the output, not flagged false);
moreover every row the classifier flags Breakout_Day has both derived fields
present. -/
theorem classified_output_characterization (bars : List Bar) (start w : ℕ) (vt pt : ℚ) :
    (∀ b : DerivedBar,
        b ∈ calculate_rolling_avg_volume bars start w ↔
          b ∈ derive bars w ∧ start ≤ b.date
            ∧ b.avg_volume.isSome = true ∧ b.daily_return.isSome = true)
    ∧ (identify_breakout_days (calculate_rolling_avg_volume bars start w) vt pt).all
        (fun c => !c.breakout_day || (c.avg_volume.isSome && c.daily_return.isSome)) = true := by
  constructor
  · intro b
    unfold calculate_rolling_avg_volume
    simp only [List.mem_filter, decide_eq_true_eq, Bool.and_eq_true, and_assoc]
  · rw [List.all_eq_true]
    intro c hc
    unfold identify_breakout_days at hc
    rw [List.mem_map] at hc
    obtain ⟨b, _, rfl⟩ := hc
    exact classifyBar_breakout_defined vt pt b

/-! Lemmas about the forward lookup of calculate_holding_returns.  The date
index of the frame is strictly increasing (the invariant of the fetched
series), so the label slice data.loc from a given row onward is exactly the
positional suffix starting at that row. -/

theorem getD_eq_getElem_of_lt {α : Type} [Inhabited α] (l : List α) (i : ℕ)
    (hi : i < l.length) : l.getD i default = l[i] := by
  rw [List.getD_eq_getElem?_getD, List.getElem?_eq_getElem hi]
  rfl

theorem dropWhile_date_lt (rows : List ClassifiedBar) (i : ℕ)
    (hs : List.Pairwise (fun a b => a.date < b.date) rows) (hi : i < rows.length) :
    (rows.dropWhile fun r => decide (r.date < (rows.getD i default).date)) = rows.drop i := by
  induction rows generalizing i with
  | nil => simp at hi
  | cons a tl ih =>
    cases i with
    | zero =>
      rw [List.getD_cons_zero, List.dropWhile_cons]
      simp
    | succ j =>
      have hj : j < tl.length := by simpa using hi
      rw [List.getD_cons_succ, List.dropWhile_cons]
      have hmem : tl.getD j default ∈ tl := by
        rw [getD_eq_getElem_of_lt tl j hj]
        exact List.getElem_mem hj
      have hlt : a.date < (tl.getD j default).date :=
        (List.pairwise_cons.mp hs).1 _ hmem
      rw [if_pos (by simpa using hlt), List.drop_succ_cons]
      exact ih j (List.pairwise_cons.mp hs).2 hj

theorem futureWindow_eq (rows : List ClassifiedBar) (hp i : ℕ)
    (hs : List.Pairwise (fun a b => a.date < b.date) rows) (hi : i < rows.length) :
    futureWindow rows (rows.getD i default).date hp = (rows.drop (i + 1)).take hp := by
  unfold futureWindow
  rw [dropWhile_date_lt rows i hs hi, List.drop_drop]

/-- When at least hp rows follow position i, the future window is full and its
last element sits exactly hp positions after the signal. -/
theorem getLast_window_full (rows : List ClassifiedBar) (hp i : ℕ) (hp1 : 1 ≤ hp)
    (hfull : i + hp < rows.length) :
    ((rows.drop (i + 1)).take hp).getLast? = some (rows.getD (i + hp) default) := by
  rw [List.getLast?_eq_getElem?]
  have hlen : ((rows.drop (i + 1)).take hp).length = hp := by
    rw [List.length_take, List.length_drop]
    omega
  rw [hlen, List.getElem?_take, if_pos (by omega), List.getElem?_drop]
  have harith : i + 1 + (hp - 1) = i + hp := by omega
  rw [harith, List.getElem?_eq_getElem (by omega),
      getD_eq_getElem_of_lt rows (i + hp) (by omega)]

/-- When fewer than hp rows follow position i but at least one does, the
future window is the whole suffix and its last element is the last row. -/
theorem getLast_window_trunc (rows : List ClassifiedBar) (hp i : ℕ)
    (hnext : i + 1 < rows.length) (hshort : rows.length ≤ i + hp) :
    ((rows.drop (i + 1)).take hp).getLast? = some (rows.getD (rows.length - 1) default) := by
  rw [List.take_of_length_le (by rw [List.length_drop]; omega),
      List.getLast?_eq_getElem?, List.length_drop, List.getElem?_drop]
  have harith : i + 1 + (rows.length - (i + 1) - 1) = rows.length - 1 := by omega
  rw [harith, List.getElem?_eq_getElem (by omega),
      getD_eq_getElem_of_lt rows (rows.length - 1) (by omega)]

/-- The row of calculate_holding_returns built from the breakout at position
i, with the label slice rewritten to the positional suffix. -/
theorem makeTrade_eq (rows : List ClassifiedBar) (hp i : ℕ)
    (hs : List.Pairwise (fun a b => a.date < b.date) rows) (hi : i < rows.length) :
    makeTrade rows hp (rows.getD i default) =
      { toClassifiedBar := rows.getD i default
        buy_price := (rows.getD i default).close
        sell_date := ((rows.drop (i + 1)).take hp).getLast?.map fun r => r.date
        sell_price := ((rows.drop (i + 1)).take hp).getLast?.map fun r => r.close } := by
  unfold makeTrade
  rw [futureWindow_eq rows hp i hs hi]

/-- A breakout row whose computed sell entry is present survives both the
breakout filter and the final dropna of calculate_holding_returns. -/
theorem makeTrade_mem (rows : List ClassifiedBar) (hp i : ℕ)
    (hi : i < rows.length) (hb : (rows.getD i default).breakout_day = true)
    (hsell : (makeTrade rows hp (rows.getD i default)).sell_price.isSome = true) :
    makeTrade rows hp (rows.getD i default) ∈ calculate_holding_returns rows hp := by
  unfold calculate_holding_returns
  rw [List.mem_filter]
  refine ⟨?_, hsell⟩
  rw [List.mem_map]
  refine ⟨rows.getD i default, ?_, rfl⟩
  rw [List.mem_filter]
  refine ⟨?_, hb⟩
  rw [getD_eq_getElem_of_lt rows i hi]
  exact List.getElem_mem hi

/-! Concrete classified frames used as inputs of counterexamples and
witnesses. -/

/-- A breakout row: date 0, close 10. -/
def exSignalRow : ClassifiedBar :=
  { date := 0, close := 10, volume := 300, avg_volume := some 100, daily_return := some 5,
    volume_breakout := true, price_breakout := true, breakout_day := true }

/-- A quiet row: date 1, close 11. -/
def exQuietRow1 : ClassifiedBar :=
  { date := 1, close := 11, volume := 100, avg_volume := some 100, daily_return := some 1,
    volume_breakout := false, price_breakout := false, breakout_day := false }

/-- A quiet row: date 2, close 12. -/
def exQuietRow2 : ClassifiedBar :=
  { date := 2, close := 12, volume := 100, avg_volume := some 100, daily_return := some 1,
    volume_breakout := false, price_breakout := false, breakout_day := false }

/-- A quiet row: date 3, close 13. -/
def exQuietRow3 : ClassifiedBar :=
  { date := 3, close := 13, volume := 100, avg_volume := some 100, daily_return := some 1,
    volume_breakout := false, price_breakout := false, breakout_day := false }

/-- Three classified rows, a single breakout on the first. -/
def exRows3 : List ClassifiedBar := [exSignalRow, exQuietRow1, exQuietRow2]

/-- Four classified rows, a single breakout on the first. -/
def exRows4 : List ClassifiedBar := [exSignalRow, exQuietRow1, exQuietRow2, exQuietRow3]

/-- A breakout row on date 1, used as the last bar of a frame. -/
def exLastSignalRow : ClassifiedBar :=
  { date := 1, close := 11, volume := 300, avg_volume := some 100, daily_return := some 5,
    volume_breakout := true, price_breakout := true, breakout_day := true }

/-- Two classified rows whose single breakout falls on the last bar. -/
def exRowsLast : List ClassifiedBar :=
  [ { date := 0, close := 10, volume := 100, avg_volume := some 100, daily_return := some 1,
      volume_breakout := false, price_breakout := false, breakout_day := false },
    exLastSignalRow ]

/-- The 25-bar scenario of the spec at the evaluator level: dates 0 to 24 and
a single breakout at bar 20. -/
def exRows25 : List ClassifiedBar :=
  (List.range 25).map fun k =>
    { date := k, close := 1, volume := 1000, avg_volume := some 1000, daily_return := some 1,
      volume_breakout := decide (k = 20), price_breakout := decide (k = 20),
      breakout_day := decide (k = 20) }

/-- A breakout whose signal date equals the date of the last row of the frame
produces no trade: its future window (the label slice minus the row itself)
is empty, so its Sell_Price is missing and the final dropna removes it. -/
theorem last_bar_no_trade (rows : List ClassifiedBar) (hp : ℕ) (b : ClassifiedBar)
    (hs : List.Pairwise (fun a b => a.date < b.date) rows)
    (hlast : rows.getLast? = some b) :
    (calculate_holding_returns rows hp).filter (fun t => decide (t.date = b.date)) = [] := by
  rw [List.filter_eq_nil_iff]
  intro t ht
  simp only [decide_eq_true_eq]
  intro hdate
  unfold calculate_holding_returns at ht
  rw [List.mem_filter] at ht
  obtain ⟨hmap, hsome⟩ := ht
  rw [List.mem_map] at hmap
  obtain ⟨c, hcmem, hmk⟩ := hmap
  have hn : 0 < rows.length := by
    cases rows with
    | nil => simp at hlast
    | cons a tl => simp
  have hb2 : rows.getD (rows.length - 1) default = b := by
    rw [List.getD_eq_getElem?_getD, ← List.getLast?_eq_getElem?, hlast]
    rfl
  have hcd : c.date = b.date := by
    rw [← hmk] at hdate
    exact hdate
  have hfw : futureWindow rows c.date hp = [] := by
    unfold futureWindow
    rw [hcd, ← hb2, dropWhile_date_lt rows (rows.length - 1) hs (by omega), List.drop_drop,
        List.drop_eq_nil_of_le (by omega)]
    simp
  rw [← hmk] at hsome
  unfold makeTrade at hsome
  rw [hfw] at hsome
  simp at hsome

/-- C1 counterexample: on three rows with a breakout at position 0 and
holding_period 5, the evaluator emits a trade whose sell entry is the bar at
position 2 (close 12), not the nonexistent bar 5 positions after the signal;
the claim forbids such an earlier substitute bar. -/
theorem sell_index_truncation_counterexample :
    exRows3.map (fun r => r.date) = [0, 1, 2]
    ∧ (calculate_holding_returns exRows3 5).map (fun t => (t.date, t.sell_date)) = [(0, some 2)]
    ∧ (calculate_holding_returns exRows3 5).map (fun t => t.sell_price) = [some 12]
    ∧ (0 + 5 : ℕ) ≠ 2 :=
  ⟨rfl, rfl, rfl, by decide⟩

/-- C1 amended: for every emitted trade whose signal bar sits at a position i
followed by at least holding_period further rows, the sell entry is exactly
the row holding_period positions after i: its date is the date at position
i + holding_period and its price is the close at that exact position.  (When
fewer rows follow, the source instead substitutes the last available bar.) -/
theorem sell_at_exact_offset_when_available (rows : List ClassifiedBar) (hp : ℕ)
    (hs : List.Pairwise (fun a b => a.date < b.date) rows) (hp1 : 1 ≤ hp)
    (t : TradeRow) (ht : t ∈ calculate_holding_returns rows hp)
    (i : ℕ) (hi : i < rows.length)
    (hsig : t.toClassifiedBar = rows.getD i default)
    (hfull : i + hp < rows.length) :
    t.sell_date = some ((rows.getD (i + hp) default).date)
    ∧ t.sell_price = some ((rows.getD (i + hp) default).close) := by
  unfold calculate_holding_returns at ht
  rw [List.mem_filter] at ht
  obtain ⟨hmap, hsome⟩ := ht
  rw [List.mem_map] at hmap
  obtain ⟨c, hcmem, hmk⟩ := hmap
  have hct : (makeTrade rows hp c).toClassifiedBar = c := rfl
  have hc : c = rows.getD i default := by rw [← hsig, ← hmk, hct]
  subst hc
  rw [← hmk, makeTrade_eq rows hp i hs hi, getLast_window_full rows hp i hp1 hfull]
  exact ⟨rfl, rfl⟩

/-- The C1 amended theorem evaluated on four concrete rows with a breakout at
position 0 and holding_period 2: the emitted trade sells at position 2. -/
theorem sell_at_exact_offset_witness :
    ((calculate_holding_returns exRows4 2).getD 0 default ∈ calculate_holding_returns exRows4 2
    ∧ ((calculate_holding_returns exRows4 2).getD 0 default).toClassifiedBar
        = exRows4.getD 0 default
    ∧ 0 + 2 < exRows4.length)
    ∧ (((calculate_holding_returns exRows4 2).getD 0 default).sell_date
          = some ((exRows4.getD (0 + 2) default).date)
      ∧ ((calculate_holding_returns exRows4 2).getD 0 default).sell_price
          = some ((exRows4.getD (0 + 2) default).close)) := by
  have hmem : (calculate_holding_returns exRows4 2).getD 0 default
      ∈ calculate_holding_returns exRows4 2 := by
    rw [getD_eq_getElem_of_lt _ 0 (by decide)]
    exact List.getElem_mem (by decide)
  exact ⟨⟨hmem, rfl, by decide⟩,
    sell_at_exact_offset_when_available exRows4 2 (by decide) (by decide) _ hmem 0
      (by decide) rfl (by decide)⟩

/-- C2 counterexample: the 25-bar scenario of the spec with a single breakout
at bar 20 and holding_period 10.  The claim demands zero trades because only
4 bars follow bar 20; the source instead emits one trade, selling at the
last bar (position 24). -/
theorem truncated_trade_emitted_counterexample :
    exRows25.length = 25
    ∧ (exRows25.getD 20 default).breakout_day = true
    ∧ exRows25.length ≤ 20 + 10
    ∧ (calculate_holding_returns exRows25 10).map (fun t => (t.date, t.sell_date))
        = [(20, some 24)] :=
  ⟨rfl, by decide, by decide, rfl⟩

/-- C2 amended: a breakout signal is silently dropped (no trade, no error)
when it falls on the LAST bar of the series, the only case in which no
subsequent bar exists; a signal with fewer than holding_period subsequent
bars but at least one still produces a trade, so the 25-bar scenario with
holding_period 10 yields one trade selling at bar 24, not zero. -/
theorem no_trade_only_on_last_bar (rows : List ClassifiedBar) (hp : ℕ) (b : ClassifiedBar)
    (hs : List.Pairwise (fun a b => a.date < b.date) rows)
    (hlast : rows.getLast? = some b) :
    (calculate_holding_returns rows hp).filter (fun t => decide (t.date = b.date)) = [] :=
  last_bar_no_trade rows hp b hs hlast

/-- The C2 amended theorem evaluated on two concrete rows whose single
breakout is the last bar: the evaluator emits no trade for it. -/
theorem no_trade_only_on_last_bar_witness :
    (List.Pairwise (fun a b => a.date < b.date) exRowsLast
    ∧ exRowsLast.getLast? = some exLastSignalRow)
    ∧ (calculate_holding_returns exRowsLast 3).filter
        (fun t => decide (t.date = exLastSignalRow.date)) = [] :=
  ⟨⟨by decide, rfl⟩, no_trade_only_on_last_bar exRowsLast 3 exLastSignalRow (by decide) rfl⟩

/-- C9: a breakout at position i with at least one but fewer than
holding_period subsequent rows still produces a trade, whose sell entry is
the LAST row of the series (a truncated holding period); and a signal is
suppressed only on the very last bar, whose date never appears as the
signal date of an emitted trade. -/
theorem truncated_holding_trade_emitted (rows : List ClassifiedBar) (hp i : ℕ)
    (b : ClassifiedBar)
    (hs : List.Pairwise (fun a b => a.date < b.date) rows)
    (hb : (rows.getD i default).breakout_day = true)
    (hnext : i + 1 < rows.length) (hshort : rows.length ≤ i + hp)
    (hlast : rows.getLast? = some b) :
    ({ toClassifiedBar := rows.getD i default
       buy_price := (rows.getD i default).close
       sell_date := some ((rows.getD (rows.length - 1) default).date)
       sell_price := some ((rows.getD (rows.length - 1) default).close) } : TradeRow)
      ∈ calculate_holding_returns rows hp
    ∧ (calculate_holding_returns rows hp).filter
        (fun t => decide (t.date = b.date)) = [] := by
  constructor
  · have hmk2 : makeTrade rows hp (rows.getD i default) =
        ({ toClassifiedBar := rows.getD i default
           buy_price := (rows.getD i default).close
           sell_date := some ((rows.getD (rows.length - 1) default).date)
           sell_price := some ((rows.getD (rows.length - 1) default).close) } : TradeRow) := by
      rw [makeTrade_eq rows hp i hs (by omega), getLast_window_trunc rows hp i hnext hshort]
      rfl
    rw [← hmk2]
    refine makeTrade_mem rows hp i (by omega) hb ?_
    rw [hmk2]
    rfl
  · exact last_bar_no_trade rows hp b hs hlast

/-- The C9 theorem evaluated on three concrete rows with a breakout at
position 0 and holding_period 5: only two bars follow, the trade sells at
the last bar (date 2, close 12), and the last bar itself signals nothing. -/
theorem truncated_holding_trade_emitted_witness :
    ((exRows3.getD 0 default).breakout_day = true
    ∧ 0 + 1 < exRows3.length ∧ exRows3.length ≤ 0 + 5
    ∧ exRows3.getLast? = some exQuietRow2)
    ∧ (({ toClassifiedBar := exRows3.getD 0 default
          buy_price := (exRows3.getD 0 default).close
          sell_date := some ((exRows3.getD (exRows3.length - 1) default).date)
          sell_price := some ((exRows3.getD (exRows3.length - 1) default).close) } : TradeRow)
        ∈ calculate_holding_returns exRows3 5
      ∧ (calculate_holding_returns exRows3 5).filter
          (fun t => decide (t.date = exQuietRow2.date)) = []) :=
  ⟨⟨rfl, by decide, by decide, rfl⟩,
    truncated_holding_trade_emitted exRows3 5 0 exQuietRow2 (by decide) rfl (by decide)
      (by decide) rfl⟩

/-- Boolean check that a trade sells strictly after its signal date. -/
def sellAfterSignal (t : TradeRow) : Bool :=
  match t.sell_date with
  | some d => decide (t.date < d)
  | none => false

/-- C10: under the series invariant of strictly increasing dates, every
emitted trade has a present sell date strictly later than its signal date,
for every holding_period of at least 1: the forward lookup starts at the row
after the breakout row and never selects the breakout bar itself. -/
theorem sell_strictly_after_signal (rows : List ClassifiedBar) (hp : ℕ)
    (hs : List.Pairwise (fun a b => a.date < b.date) rows) (hp1 : 1 ≤ hp) :
    (calculate_holding_returns rows hp).all sellAfterSignal = true := by
  rw [List.all_eq_true]
  intro t ht
  unfold calculate_holding_returns at ht
  rw [List.mem_filter] at ht
  obtain ⟨hmap, hsome⟩ := ht
  rw [List.mem_map] at hmap
  obtain ⟨c, hcmem, hmk⟩ := hmap
  have hcrows : c ∈ rows := List.mem_of_mem_filter hcmem
  rw [List.mem_iff_getElem?] at hcrows
  obtain ⟨j, hj⟩ := hcrows
  have hjlen : j < rows.length := by
    by_contra hcon
    rw [List.getElem?_eq_none (by omega)] at hj
    simp at hj
  have hcd : rows.getD j default = c := by
    rw [getD_eq_getElem_of_lt rows j hjlen]
    rw [List.getElem?_eq_getElem hjlen] at hj
    exact Option.some.inj hj
  have hfw : futureWindow rows c.date hp = (rows.drop (j + 1)).take hp := by
    rw [← hcd]
    exact futureWindow_eq rows hp j hs hjlen
  subst hmk
  unfold makeTrade at hsome
  rw [hfw] at hsome
  cases hgl : ((rows.drop (j + 1)).take hp).getLast? with
  | none =>
    rw [hgl] at hsome
    simp at hsome
  | some r =>
    have hrmem : r ∈ rows.drop (j + 1) :=
      List.mem_of_mem_take (List.mem_of_mem_getLast? hgl)
    rw [List.mem_iff_getElem?] at hrmem
    obtain ⟨k, hk⟩ := hrmem
    rw [List.getElem?_drop] at hk
    have hklen : j + 1 + k < rows.length := by
      by_contra hcon
      rw [List.getElem?_eq_none (by omega)] at hk
      simp at hk
    have hdate : c.date < r.date := by
      have hpg := List.pairwise_iff_getElem.mp hs j (j + 1 + k) hjlen hklen (by omega)
      rw [List.getElem?_eq_getElem hjlen] at hj
      rw [List.getElem?_eq_getElem hklen] at hk
      have hj2 : rows[j] = c := Option.some.inj hj
      have hk2 : rows[j + 1 + k] = r := Option.some.inj hk
      rw [hj2, hk2] at hpg
      exact hpg
    unfold sellAfterSignal makeTrade
    rw [hfw, hgl]
    simpa using hdate

/-- The C10 theorem evaluated on three concrete rows with holding_period 5:
every emitted trade sells strictly after its signal date. -/
theorem sell_strictly_after_signal_witness :
    (List.Pairwise (fun a b => a.date < b.date) exRows3 ∧ 1 ≤ 5)
    ∧ (calculate_holding_returns exRows3 5).all sellAfterSignal = true :=
  ⟨⟨by decide, by decide⟩, sell_strictly_after_signal exRows3 5 (by decide) (by decide)⟩

/-! Insufficient history (C5) and the summary metrics (C6). -/

/-- Three bars only: fewer than rolling_window + 1 bars for window 5. -/
def shortBars : List Bar :=
  [ { date := 0, close := 10, volume := 100 },
    { date := 1, close := 10, volume := 100 },
    { date := 2, close := 10, volume := 100 } ]

/-- A classified frame with no breakout anywhere: the legitimate zero-signal
state. -/
def noSignalRows : List ClassifiedBar :=
  [ { date := 0, close := 10, volume := 100, avg_volume := some 100, daily_return := some 0,
      volume_breakout := false, price_breakout := false, breakout_day := false },
    { date := 1, close := 10, volume := 100, avg_volume := some 100, daily_return := some 0,
      volume_breakout := false, price_breakout := false, breakout_day := false } ]

/-- C5 counterexample: on a series of 3 bars with rolling_window 5 (fewer
than rolling_window + 1 bars) the baseline stage raises nothing and returns
the empty frame, the full pipeline returns the empty trade list, and a
legitimate zero-signal run produces the very same empty trade list: the two
outcomes are equal, hence not distinguishable by the caller, and no
InsufficientHistory failure exists anywhere in the source. -/
theorem insufficient_history_counterexample :
    calculate_rolling_avg_volume shortBars 0 5 = []
    ∧ run_pipeline shortBars 0 5 200 2 3 = []
    ∧ calculate_holding_returns noSignalRows 3 = []
    ∧ run_pipeline shortBars 0 5 200 2 3 = calculate_holding_returns noSignalRows 3 :=
  ⟨rfl, rfl, rfl, rfl⟩

/-- C5 amended: when the supplied series has fewer than rolling_window + 1
bars the baseline stage does not fail: every row of the full buffered frame
has a missing trailing average, so the dropna removes every row, the
baseline stage returns the empty frame and the pipeline returns the empty
trade list, the same observable state as a legitimate zero-signal run. -/
theorem insufficient_history_empty_result (bars : List Bar) (start w : ℕ)
    (vt pt : ℚ) (hp : ℕ) (hlen : bars.length < w + 1) :
    calculate_rolling_avg_volume bars start w = []
    ∧ run_pipeline bars start w vt pt hp = [] := by
  have hmain : calculate_rolling_avg_volume bars start w = [] := by
    unfold calculate_rolling_avg_volume
    rw [List.filter_eq_nil_iff]
    intro b hb
    have hb2 : b ∈ derive bars w := List.mem_of_mem_filter hb
    unfold derive at hb2
    rw [List.mem_map] at hb2
    obtain ⟨i, hi, rfl⟩ := hb2
    rw [List.mem_range] at hi
    have hnone : (avgVolumeCol w (bars.map fun b => b.volume)).getD i none = none := by
      by_cases h1 : 1 ≤ i
      · rw [avgVolumeCol_getD w _ i h1 (by rw [List.length_map]; exact hi),
            if_neg (by omega)]
      · have h0 : i = 0 := by omega
        subst h0
        exact avgVolumeCol_getD_zero w _ (by rw [List.length_map]; omega)
    simp only [List.getD_eq_getElem?_getD] at hnone
    simp [hnone]
  refine ⟨hmain, ?_⟩
  unfold run_pipeline
  rw [hmain]
  rfl

/-- The C5 amended theorem evaluated on the concrete 3-bar series with
rolling_window 3: empty classified frame and empty trade list. -/
theorem insufficient_history_empty_result_witness :
    shortBars.length < 3 + 1
    ∧ (calculate_rolling_avg_volume shortBars 0 3 = []
       ∧ run_pipeline shortBars 0 3 200 2 3 = []) :=
  ⟨by decide, insufficient_history_empty_result shortBars 0 3 200 2 3 (by decide)⟩

/-- The sum of the 0-or-1 indicator of a positive return equals the number of
rows with a positive return. -/
theorem sum_indicator_eq_count (trades : List TradeRow) :
    (trades.map fun t => if 0 < rowReturn t then (1 : ℚ) else 0).sum
      = ((trades.filter fun t => decide (0 < rowReturn t)).length : ℚ) := by
  induction trades with
  | nil => simp
  | cons t tl ih =>
    by_cases h : 0 < rowReturn t
    · simp only [List.map_cons, List.sum_cons, if_pos h, ih, List.filter_cons,
        decide_eq_true h, if_pos, List.length_cons]
      push_cast
      ring
    · simp only [List.map_cons, List.sum_cons, if_neg h, ih, List.filter_cons,
        decide_eq_false h, Bool.false_eq_true, if_false, zero_add]

/-- C6: the summary block reports nothing when the trade set is empty (the
metrics stay undefined, never 0), and otherwise reports the exact trade
count, the arithmetic mean of the Return column, and the percentage of
trades with a strictly positive return. -/
theorem summary_spec (trades : List TradeRow) :
    (trades = [] → summarize trades = none)
    ∧ (trades ≠ [] →
        summarize trades = some
          { total_trades := trades.length
            mean_return_pct := (trades.map rowReturn).sum / (trades.length : ℚ)
            win_rate_pct := ((trades.filter fun t => decide (0 < rowReturn t)).length : ℚ)
                / (trades.length : ℚ) * 100 }) := by
  constructor
  · intro h
    subst h
    rfl
  · intro h
    unfold summarize
    rw [if_neg (by simpa [List.isEmpty_iff] using h)]
    have hmean : seriesMean (trades.map rowReturn)
        = (trades.map rowReturn).sum / (trades.length : ℚ) := by
      unfold seriesMean
      rw [List.length_map]
    have hwin : seriesMean (trades.map fun t => if 0 < rowReturn t then (1 : ℚ) else 0) * 100
        = ((trades.filter fun t => decide (0 < rowReturn t)).length : ℚ)
            / (trades.length : ℚ) * 100 := by
      unfold seriesMean
      rw [sum_indicator_eq_count, List.length_map]
    rw [hmean, hwin]

/-- A winning trade: bought at 10, sold at 11. -/
def exTrade1 : TradeRow :=
  { date := 0, close := 10, volume := 300, avg_volume := some 100, daily_return := some 5,
    volume_breakout := true, price_breakout := true, breakout_day := true,
    buy_price := 10, sell_date := some 2, sell_price := some 11 }

/-- A losing trade: bought at 10, sold at 9. -/
def exTrade2 : TradeRow :=
  { date := 1, close := 10, volume := 300, avg_volume := some 100, daily_return := some 5,
    volume_breakout := true, price_breakout := true, breakout_day := true,
    buy_price := 10, sell_date := some 3, sell_price := some 9 }

/-- The C6 theorem evaluated on a concrete pair of trades. -/
theorem summary_spec_witness :
    ([exTrade1, exTrade2] : List TradeRow) ≠ []
    ∧ summarize [exTrade1, exTrade2] = some
        { total_trades := ([exTrade1, exTrade2] : List TradeRow).length
          mean_return_pct := (([exTrade1, exTrade2] : List TradeRow).map rowReturn).sum
              / ((([exTrade1, exTrade2] : List TradeRow).length : ℕ) : ℚ)
          win_rate_pct := ((([exTrade1, exTrade2] : List TradeRow).filter
                fun t => decide (0 < rowReturn t)).length : ℚ)
              / ((([exTrade1, exTrade2] : List TradeRow).length : ℕ) : ℚ) * 100 } :=
  ⟨List.cons_ne_nil _ _, (summary_spec [exTrade1, exTrade2]).2 (List.cons_ne_nil _ _)⟩

end Breakout
